import Mathlib

/-!
Verification of the flowstate motion-capture application against its
natural-language specification.  The definitions below are a shallow
embedding of the repository's TypeScript/JavaScript sources:

* the capture-space → scene-space coordinate transform documented for the
  `StickFigure` component (docs "Component Documentation", Coordinate
  Transformation snippet);
* the zustand application store `useAppStore` (`appStore.ts`):
  `setCurrentFrame`, `updateSettings`, `updateFlowMetrics` and friends;
* the `VideoCapture` status-polling loop, in both its Electron-IPC variant
  and its direct-HTTP (axios) variant;
* the Electron main-process IPC handlers for the video job lifecycle
  (`upload-video`, `process-video`, `get-video-status`, `get-video-results`);
* the animation-document schema validator (modelled from the specification,
  since `AnimationLoader.validateAnimationData` is only declared in the
  repository's API documentation).

Numbers that are `number` in the source are modelled as rationals `ℚ`
(progress percentages, which the source only ever handles as integers,
are `Nat`).  JavaScript `undefined`/`null` becomes `Option`.
-/

namespace Flowstate

/-! ### Coordinate transform (StickFigure) -/

/-- A 3-component landmark `[x, y, z]`. -/
structure Vec3 where
  x : ℚ
  y : ℚ
  z : ℚ
deriving DecidableEq, Repr

/-- Capture-space → scene-space transform, embedded from the StickFigure
coordinate-transformation snippet:
`x = (landmark[0] - 0.5) * 2 * (mirrored ? -1 : 1)`,
`y = -(landmark[1] - 0.5) * 2`, `z = -landmark[2] * 2`. -/
def toScene (l : Vec3) (mirrored : Bool) : Vec3 where
  x := (l.x - 1/2) * 2 * (if mirrored then -1 else 1)
  y := -(l.y - 1/2) * 2
  z := -l.z * 2

/-- The same transform written from the specification's words (§4.4):
`x' = (x - 0.5) * 2 * (mirrored ? -1 : 1)`, `y' = -(y - 0.5) * 2`,
`z' = -z * 2`.  Kept separate from `toScene` so the code-side and
spec-side formulas can be compared. -/
def toSceneSpec (l : Vec3) (mirrored : Bool) : Vec3 where
  x := (l.x - 1/2) * 2 * (if mirrored then -1 else 1)
  y := -(l.y - 1/2) * 2
  z := -l.z * 2

/-- Negation of the x coordinate ("Mirror: x * -1" in the data-model docs). -/
def negX (v : Vec3) : Vec3 :=
  { v with x := -v.x }

/-! ### Application store (`appStore.ts`) -/

/-- `settings.theme` — the source type is the union `'light' | 'dark'`. -/
inductive Theme
  | light
  | dark
deriving DecidableEq, Repr

/-- The `settings` slice of the store. -/
structure Settings where
  theme : Theme
  showSkeleton : Bool
  showTrajectories : Bool
  playbackSpeed : ℚ
  autoDetectFlow : Bool
deriving DecidableEq, Repr

/-- The `flowMetrics` slice of the store. -/
structure FlowMetrics where
  coherence : ℚ
  smoothness : ℚ
  balance : ℚ
  energy : ℚ
  focus : ℚ
deriving DecidableEq, Repr

/-- `BackendStatus.status` union type. -/
inductive BackendStatusTag
  | idle
  | running
  | error
  | stopped
deriving DecidableEq, Repr

/-- The `BackendStatus` record of the store. -/
structure BackendStatus where
  status : BackendStatusTag
  message : Option String
  code : Option Int
deriving DecidableEq, Repr

/-- Values the source types as `any` (session analysis payloads, motion
data elements, processing results).  Their structure is irrelevant to the
store's frame behaviour, so they are modelled as opaque strings. -/
abbrev AnyData := String

/-- A `Session` record of the store. -/
structure Session where
  id : String
  timestamp : Nat
  videoPath : Option String
  motionData : Option (List AnyData)
  flowMetrics : Option FlowMetrics
  analysis : Option AnyData
deriving DecidableEq, Repr

/-- The full application store state (`AppState` minus the actions). -/
structure AppState where
  backendStatus : BackendStatus
  currentSession : Option Session
  sessions : List Session
  videoPath : Option String
  isProcessing : Bool
  processingProgress : Nat
  motionData : List AnyData
  currentFrame : Int
  flowMetrics : FlowMetrics
  settings : Settings
deriving DecidableEq, Repr

/-- The store's initial values, as written in `create<AppState>()(...)`. -/
def initialAppState : AppState where
  backendStatus := { status := .idle, message := none, code := none }
  currentSession := none
  sessions := []
  videoPath := none
  isProcessing := false
  processingProgress := 0
  motionData := []
  currentFrame := 0
  flowMetrics := { coherence := 0, smoothness := 0, balance := 0, energy := 0, focus := 0 }
  settings :=
    { theme := .dark
      showSkeleton := true
      showTrajectories := true
      playbackSpeed := 1
      autoDetectFlow := true }

/-- `setCurrentFrame: (frame) => set({ currentFrame: frame })`. -/
def setCurrentFrame (frame : Int) (s : AppState) : AppState :=
  { s with currentFrame := frame }

/-- A `Partial<AppState['settings']>` argument: each key optionally present. -/
structure SettingsPatch where
  theme : Option Theme := none
  showSkeleton : Option Bool := none
  showTrajectories : Option Bool := none
  playbackSpeed : Option ℚ := none
  autoDetectFlow : Option Bool := none
deriving DecidableEq, Repr

/-- The object spread `{ ...state.settings, ...newSettings }`: keys present
in the patch win, absent keys keep the prior value. -/
def mergeSettings (old : Settings) (p : SettingsPatch) : Settings where
  theme := p.theme.getD old.theme
  showSkeleton := p.showSkeleton.getD old.showSkeleton
  showTrajectories := p.showTrajectories.getD old.showTrajectories
  playbackSpeed := p.playbackSpeed.getD old.playbackSpeed
  autoDetectFlow := p.autoDetectFlow.getD old.autoDetectFlow

/-- `updateSettings: (newSettings) => set((state) => ({ settings:
{ ...state.settings, ...newSettings } }))`. -/
def updateSettings (p : SettingsPatch) (s : AppState) : AppState :=
  { s with settings := mergeSettings s.settings p }

/-- A `Partial<AppState['flowMetrics']>` argument. -/
structure FlowMetricsPatch where
  coherence : Option ℚ := none
  smoothness : Option ℚ := none
  balance : Option ℚ := none
  energy : Option ℚ := none
  focus : Option ℚ := none
deriving DecidableEq, Repr

/-- The object spread `{ ...state.flowMetrics, ...metrics }`. -/
def mergeFlowMetrics (old : FlowMetrics) (p : FlowMetricsPatch) : FlowMetrics where
  coherence := p.coherence.getD old.coherence
  smoothness := p.smoothness.getD old.smoothness
  balance := p.balance.getD old.balance
  energy := p.energy.getD old.energy
  focus := p.focus.getD old.focus

/-- `updateFlowMetrics: (metrics) => set((state) => ({ flowMetrics:
{ ...state.flowMetrics, ...metrics } }))`. -/
def updateFlowMetrics (p : FlowMetricsPatch) (s : AppState) : AppState :=
  { s with flowMetrics := mergeFlowMetrics s.flowMetrics p }

/-! ### VideoCapture status-polling loop

The `useEffect` in `VideoCapture` runs a 1000 ms `setInterval` whose callback
issues one status request per tick.  The environment's behaviour on one tick
is one `PollOutcome`; a whole polling run is a list of outcomes folded over
the loop state.  `clearInterval` is modelled by the `active` flag: the step
function is the identity once the interval has been cleared. -/

/-- The `status` strings returned by `getVideoStatus` / `GET /video/status`. -/
inductive JobStatus
  | uploaded
  | processing
  | completed
  | error
deriving DecidableEq, Repr

/-- One tick's outcome in the Electron variant:
`ok` — the IPC reply resolved with `success: true` and a status snapshot;
`notOk` — it resolved with `success: false` (the callback does nothing);
`netFail` — the awaited call threw (handled by the `catch`). -/
inductive PollOutcome
  | ok (status : JobStatus) (progress : Nat)
  | notOk
  | netFail
deriving DecidableEq, Repr

/-- One tick's outcome in the direct-HTTP variant: either a snapshot from
`response.data` or a thrown request error. -/
inductive WebPollOutcome
  | snapshot (status : JobStatus) (progress : Nat)
  | netFail
deriving DecidableEq, Repr

/-- Outcome of the single results fetch in the Electron variant
(`getVideoResults` resolves `success: true` with a payload, or
`success: false` with an optional error string). -/
inductive FetchOutcome
  | ok (results : AnyData)
  | fail (errMsg : Option String)
deriving DecidableEq, Repr

/-- The poll loop's observable state: the pieces of component/store state
the callback writes, plus counters for issued requests and the interval
flag. -/
structure PollLoopState where
  active : Bool
  isProcessing : Bool
  processingProgress : Nat
  error : Option String
  results : Option AnyData
  polls : Nat
  fetchCalls : Nat
deriving DecidableEq, Repr

/-- `setError('Processing failed. Please try again.')` on job status `error`. -/
def processingFailedMsg : String := "Processing failed. Please try again."

/-- `setError('Failed to communicate with backend.')` in the Electron catch. -/
def backendCommFailedMsg : String := "Failed to communicate with backend."

/-- Fallback in `setError(resultsResponse.error || 'Failed to fetch results.')`. -/
def fetchFailedMsg : String := "Failed to fetch results."

/-- Loop state when `handleProcess` has started a job: processing flag set,
progress reset to 0, no error, interval running. -/
def initPollState : PollLoopState where
  active := true
  isProcessing := true
  processingProgress := 0
  error := none
  results := none
  polls := 0
  fetchCalls := 0

/-- One interval tick of the Electron `VideoCapture` poll `useEffect`:
on `success: true` it stores the progress; on status `completed` it clears
the interval, clears the processing flag and calls `getVideoResults` once
(outcome `fetch`); on status `error` it clears the interval and sets the
fixed failure message; on `success: false` it does nothing; a thrown
request error sets the communication message and clears the interval. -/
def pollStepElectron (fetch : FetchOutcome) (s : PollLoopState) (o : PollOutcome) :
    PollLoopState :=
  if s.active then
    let s := { s with polls := s.polls + 1 }
    match o with
    | .ok status progress =>
      let s := { s with processingProgress := progress }
      match status with
      | .completed =>
        let s := { s with active := false, isProcessing := false,
                          fetchCalls := s.fetchCalls + 1 }
        match fetch with
        | .ok r => { s with results := some r }
        | .fail e => { s with error := some (e.getD fetchFailedMsg) }
      | .error =>
        { s with active := false, isProcessing := false,
                 error := some processingFailedMsg }
      | _ => s
    | .notOk => s
    | .netFail =>
      { s with error := some backendCommFailedMsg, isProcessing := false,
               active := false }
  else s

/-- One interval tick of the direct-HTTP `VideoCapture` poll `useEffect`:
like the Electron variant on snapshots, but the results fetch either
resolves with a payload or throws (then the `catch` only logs), and a
thrown status request is only logged — polling continues. -/
def pollStepWeb (fetch : Option AnyData) (s : PollLoopState) (o : WebPollOutcome) :
    PollLoopState :=
  if s.active then
    let s := { s with polls := s.polls + 1 }
    match o with
    | .snapshot status progress =>
      let s := { s with processingProgress := progress }
      match status with
      | .completed =>
        let s := { s with active := false, isProcessing := false,
                          fetchCalls := s.fetchCalls + 1 }
        match fetch with
        | some r => { s with results := some r }
        | none => s
      | .error =>
        { s with active := false, isProcessing := false,
                 error := some processingFailedMsg }
      | _ => s
    | .netFail => s
  else s

/-- A whole Electron polling run over a list of tick outcomes. -/
def runPollElectron (fetch : FetchOutcome) (os : List PollOutcome) : PollLoopState :=
  os.foldl (pollStepElectron fetch) initPollState

/-- A whole direct-HTTP polling run over a list of tick outcomes. -/
def runPollWeb (fetch : Option AnyData) (os : List WebPollOutcome) : PollLoopState :=
  os.foldl (pollStepWeb fetch) initPollState

/-- Electron-variant outcomes after which the callback leaves the interval
running (non-terminal snapshot or a `success: false` reply). -/
def keepsPollingE : PollOutcome → Bool
  | .ok .uploaded _ => true
  | .ok .processing _ => true
  | .ok .completed _ => false
  | .ok .error _ => false
  | .notOk => true
  | .netFail => false

/-- Direct-HTTP-variant outcomes after which polling continues — including
thrown requests, which that variant only logs. -/
def keepsPollingW : WebPollOutcome → Bool
  | .snapshot .uploaded _ => true
  | .snapshot .processing _ => true
  | .snapshot .completed _ => false
  | .snapshot .error _ => false
  | .netFail => true

/-! ### Electron main-process IPC handlers (job lifecycle)

Each of the four handlers is `try { ...await axios... ; return { success:
true, data: response.data } } catch (error) { return { success: false,
error: error.response?.data?.error || error.message } }`.  A backend
outcome is either a resolved response or a thrown error object carrying a
`message` string and, when the failure came from an HTTP error response,
an optional server-supplied error string. -/

/-- What the awaited backend call does: resolve with data, or throw.  A
thrown value is an `Error` whose `message` is a string; for axios HTTP
failures `error.response.data.error` may also be present. -/
inductive BackendOutcome
  | ok (data : AnyData)
  | thrown (responseError : Option String) (message : String)
deriving DecidableEq, Repr

/-- The resolved value of an `ipcMain.handle` job-lifecycle handler:
`{ success: true, data }` or `{ success: false, error }`. -/
inductive IpcResult
  | success (data : AnyData)
  | failure (error : String)
deriving DecidableEq, Repr

/-- The common try/catch body shared verbatim by the four video handlers. -/
def handleJobIpc (o : BackendOutcome) : IpcResult :=
  match o with
  | .ok data => .success data
  | .thrown responseError message => .failure (responseError.getD message)

/-- `ipcMain.handle('upload-video', ...)` — the whole body, including the
`form-data` construction and `fs.createReadStream`, sits inside the `try`,
so a throw from any of those steps is also a `thrown` outcome. -/
def uploadVideoHandler (o : BackendOutcome) : IpcResult := handleJobIpc o

/-- `ipcMain.handle('process-video', ...)`. -/
def processVideoHandler (o : BackendOutcome) : IpcResult := handleJobIpc o

/-- `ipcMain.handle('get-video-status', ...)`. -/
def getVideoStatusHandler (o : BackendOutcome) : IpcResult := handleJobIpc o

/-- `ipcMain.handle('get-video-results', ...)`. -/
def getVideoResultsHandler (o : BackendOutcome) : IpcResult := handleJobIpc o

/-! ### Schema validator -/

/-- The validation error taxonomy of spec §4.1/§7, each tag carrying a path
to the offending field. -/
inductive ValidationError
  | missingField (path : String)
  | typeMismatch (path : String)
  | shapeMismatch (path : String)
  | outOfRange (path : String)
  | nonMonotonicSequence (path : String)
deriving DecidableEq, Repr

/-- A world-pose entry `[x, y, z, visibility]`. -/
structure Vec4 where
  x : ℚ
  y : ℚ
  z : ℚ
  visibility : ℚ
deriving DecidableEq, Repr

/-- A raw frame's `landmarks` object; every channel is optional. -/
structure RawLandmarks where
  pose : Option (List Vec3)
  worldPose : Option (List Vec4)
  leftHand : Option (List Vec3)
  rightHand : Option (List Vec3)
deriving DecidableEq, Repr

/-- A raw frame of an ingested animation document. -/
structure RawFrame where
  frame : Option Int
  time : Option ℚ
  landmarks : RawLandmarks
deriving DecidableEq, Repr

/-- Raw `metadata` object with optional fields. -/
structure RawMetadata where
  fps : Option ℚ
  totalFrames : Option Int
  processedSize : Option ℚ
  originalBbox : Option (List ℚ)
deriving DecidableEq, Repr

/-- Raw `skeleton` object with optional fields. -/
structure RawSkeleton where
  poseConnections : Option (List (Int × Int))
  handConnections : Option (List (Int × Int))
  landmarkNamesPose : Option (List String)
  landmarkNamesHand : Option (List String)
deriving DecidableEq, Repr

/-- A raw ingested animation document. -/
structure RawDocument where
  metadata : Option RawMetadata
  skeleton : Option RawSkeleton
  frames : Option (List RawFrame)
deriving DecidableEq, Repr

/-- Validated, canonical metadata. -/
structure AnimationMetadata where
  fps : ℚ
  totalFrames : Nat
  processedSize : ℚ
  originalBoundingBox : List ℚ
deriving DecidableEq, Repr

/-- Validated, canonical skeleton. -/
structure AnimationSkeleton where
  poseConnections : List (Int × Int)
  handConnections : List (Int × Int)
  landmarkNamesPose : List String
  landmarkNamesHand : List String
deriving DecidableEq, Repr

/-- The canonical animation object produced only on full validation success. -/
structure AnimationData where
  metadata : AnimationMetadata
  skeleton : AnimationSkeleton
  frames : List RawFrame
deriving DecidableEq, Repr

/-- Path string `frames[i].frame`. -/
def frameIndexPath (i : Nat) : String :=
  "frames[" ++ toString i ++ "].frame"

/-- Path string `frames[i].time`. -/
def frameTimePath (i : Nat) : String :=
  "frames[" ++ toString i ++ "].time"

/-- Path string `frames[i].landmarks.<channel>`. -/
def frameChannelPath (i : Nat) (channel : String) : String :=
  "frames[" ++ toString i ++ "].landmarks." ++ channel

/-- Modelled from the spec: metadata checks of §4.1 — field presence,
positivity of `fps`/`totalFrames`/`processedSize`, bounding box of exactly
4 numbers.  (`AnimationLoader.validateAnimationData` itself is only
declared in the API documentation, not present in the sources.) -/
def checkMetadata (d : RawDocument) : Except ValidationError RawMetadata :=
  match d.metadata with
  | none => .error (.missingField "metadata")
  | some m =>
    match m.fps with
    | none => .error (.missingField "metadata.fps")
    | some fps =>
      if fps ≤ 0 then .error (.outOfRange "metadata.fps") else
      match m.totalFrames with
      | none => .error (.missingField "metadata.total_frames")
      | some tf =>
        if tf ≤ 0 then .error (.outOfRange "metadata.total_frames") else
        match m.processedSize with
        | none => .error (.missingField "metadata.processed_size")
        | some ps =>
          if ps ≤ 0 then .error (.outOfRange "metadata.processed_size") else
          match m.originalBbox with
          | none => .error (.missingField "metadata.original_bbox")
          | some bbox =>
            if bbox.length ≠ 4 then .error (.shapeMismatch "metadata.original_bbox")
            else .ok m

/-- Modelled from the spec: every connection index lies in `[0, bound]`. -/
def connectionsInBounds (bound : Int) (cs : List (Int × Int)) : Bool :=
  cs.all fun c => 0 ≤ c.1 && c.1 ≤ bound && 0 ≤ c.2 && c.2 ≤ bound

/-- Modelled from the spec: skeleton checks of §4.1 — arrays present, pose
connection indices in `[0,32]`, hand connection indices in `[0,20]`,
33 pose landmark names, 21 hand landmark names. -/
def checkSkeleton (d : RawDocument) : Except ValidationError RawSkeleton :=
  match d.skeleton with
  | none => .error (.missingField "skeleton")
  | some sk =>
    match sk.poseConnections with
    | none => .error (.missingField "skeleton.pose_connections")
    | some pcs =>
      if ¬connectionsInBounds 32 pcs then
        .error (.outOfRange "skeleton.pose_connections") else
      match sk.handConnections with
      | none => .error (.missingField "skeleton.hand_connections")
      | some hcs =>
        if ¬connectionsInBounds 20 hcs then
          .error (.outOfRange "skeleton.hand_connections") else
        match sk.landmarkNamesPose with
        | none => .error (.missingField "skeleton.landmark_names.pose")
        | some pn =>
          if pn.length ≠ 33 then
            .error (.shapeMismatch "skeleton.landmark_names.pose") else
          match sk.landmarkNamesHand with
          | none => .error (.missingField "skeleton.landmark_names.hand")
          | some hn =>
            if hn.length ≠ 21 then
              .error (.shapeMismatch "skeleton.landmark_names.hand")
            else .ok sk

/-- Modelled from the spec: the frame array is present and `total_frames`
equals its length. -/
def checkFrameCount (d : RawDocument) (m : RawMetadata) :
    Except ValidationError (List RawFrame) :=
  match d.frames with
  | none => .error (.missingField "frames")
  | some fs =>
    if m.totalFrames = some (fs.length : Int) then .ok fs
    else .error (.shapeMismatch "metadata.total_frames")

/-- Modelled from the spec: frame indices equal their positions (strictly
increasing from 0) and times are non-decreasing, fail-fast in order; the
index of a frame is checked before its time. -/
def checkSequence : Nat → Option ℚ → List RawFrame → Except ValidationError Unit
  | _, _, [] => .ok ()
  | i, prev, f :: rest =>
    match f.frame with
    | none => .error (.missingField (frameIndexPath i))
    | some k =>
      if k ≠ (i : Int) then .error (.nonMonotonicSequence (frameIndexPath i)) else
      match f.time with
      | none => .error (.missingField (frameTimePath i))
      | some t =>
        match prev with
        | some tp =>
          if t < tp then .error (.nonMonotonicSequence (frameTimePath i))
          else checkSequence (i + 1) (some t) rest
        | none => checkSequence (i + 1) (some t) rest

/-- Does one frame's landmark object violate the exact-count requirements
(33 pose, 33 world-pose, 21 per hand) on some present channel? -/
def violatesShape (f : RawFrame) : Bool :=
  (match f.landmarks.pose with | some l => l.length ≠ 33 | none => false) ||
  (match f.landmarks.worldPose with | some l => l.length ≠ 33 | none => false) ||
  (match f.landmarks.leftHand with | some l => l.length ≠ 21 | none => false) ||
  (match f.landmarks.rightHand with | some l => l.length ≠ 21 | none => false)

/-- Shape check for one present-or-absent landmark channel of frame `i`. -/
def checkChannelShape (i : Nat) (channel : String) (expected : Nat)
    (l : Option (List Vec3)) : Except ValidationError Unit :=
  match l with
  | some l =>
    if l.length ≠ expected then .error (.shapeMismatch (frameChannelPath i channel))
    else .ok ()
  | none => .ok ()

/-- Shape check for the optional world-pose channel of frame `i`. -/
def checkWorldShape (i : Nat) (l : Option (List Vec4)) :
    Except ValidationError Unit :=
  match l with
  | some l =>
    if l.length ≠ 33 then .error (.shapeMismatch (frameChannelPath i "world_pose"))
    else .ok ()
  | none => .ok ()

/-- Shape check for one frame's landmark object, channels in document
order: pose, world-pose, left hand, right hand. -/
def checkFrameShape (i : Nat) (f : RawFrame) : Except ValidationError Unit :=
  match checkChannelShape i "pose" 33 f.landmarks.pose with
  | .error e => .error e
  | .ok _ =>
    match checkWorldShape i f.landmarks.worldPose with
    | .error e => .error e
    | .ok _ =>
      match checkChannelShape i "left_hand" 21 f.landmarks.leftHand with
      | .error e => .error e
      | .ok _ => checkChannelShape i "right_hand" 21 f.landmarks.rightHand

/-- Modelled from the spec: each frame's present landmark arrays have the
exact lengths (33 pose, 33 world-pose, 21 per hand), fail-fast. -/
def checkShapes : Nat → List RawFrame → Except ValidationError Unit
  | _, [] => .ok ()
  | i, f :: rest =>
    match checkFrameShape i f with
    | .error e => .error e
    | .ok _ => checkShapes (i + 1) rest

/-- Modelled from the spec: numeric range checks — every world-pose
visibility lies in `[0,1]`. -/
def checkRanges : Nat → List RawFrame → Except ValidationError Unit
  | _, [] => .ok ()
  | i, f :: rest =>
    match f.landmarks.worldPose with
    | some l =>
      if l.all (fun v => 0 ≤ v.visibility && v.visibility ≤ 1) then
        checkRanges (i + 1) rest
      else .error (.outOfRange (frameChannelPath i "world_pose"))
    | none => checkRanges (i + 1) rest

/-- Modelled from the spec: `validate(raw) → Result<AnimationData,
ValidationError>` — the §4.1 checks run fail-fast in the order given there;
only full success constructs the canonical object. -/
def validate (d : RawDocument) : Except ValidationError AnimationData :=
  match checkMetadata d with
  | .error e => .error e
  | .ok m =>
    match checkSkeleton d with
    | .error e => .error e
    | .ok sk =>
      match checkFrameCount d m with
      | .error e => .error e
      | .ok fs =>
        match checkSequence 0 none fs with
        | .error e => .error e
        | .ok _ =>
          match checkShapes 0 fs with
          | .error e => .error e
          | .ok _ =>
            match checkRanges 0 fs with
            | .error e => .error e
            | .ok _ =>
              .ok
                { metadata :=
                    { fps := m.fps.getD 0
                      totalFrames := fs.length
                      processedSize := m.processedSize.getD 0
                      originalBoundingBox := m.originalBbox.getD [] }
                  skeleton :=
                    { poseConnections := sk.poseConnections.getD []
                      handConnections := sk.handConnections.getD []
                      landmarkNamesPose := sk.landmarkNamesPose.getD []
                      landmarkNamesHand := sk.landmarkNamesHand.getD [] }
                  frames := fs }

/-! ### Concrete documents used as witnesses -/

/-- Metadata that passes every metadata check, with four frames. -/
def mdFour : RawMetadata where
  fps := some 30
  totalFrames := some 4
  processedSize := some 1920
  originalBbox := some [0, 0, 1920, 1080]

/-- Metadata that passes every metadata check, with one frame. -/
def mdOne : RawMetadata where
  fps := some 30
  totalFrames := some 1
  processedSize := some 1920
  originalBbox := some [0, 0, 1920, 1080]

/-- A skeleton that passes every skeleton check. -/
def skOk : RawSkeleton where
  poseConnections := some [(0, 1)]
  handConnections := some [(0, 1)]
  landmarkNamesPose := some (List.replicate 33 "p")
  landmarkNamesHand := some (List.replicate 21 "h")

/-- A landmark-free frame with index `i` and time `i` seconds. -/
def plainFrame (i : Nat) : RawFrame where
  frame := some (i : Int)
  time := some (i : ℚ)
  landmarks := { pose := none, worldPose := none, leftHand := none, rightHand := none }

/-- A document whose fourth frame carries `frame = 5` instead of `3`. -/
def docBadIndex : RawDocument where
  metadata := some mdFour
  skeleton := some skOk
  frames := some
    [plainFrame 0, plainFrame 1, plainFrame 2, { plainFrame 3 with frame := some 5 }]

/-- A frame whose pose landmark array has 30 entries instead of 33. -/
def shortPoseFrame : RawFrame where
  frame := some 0
  time := some 0
  landmarks :=
    { pose := some (List.replicate 30 ⟨0, 0, 0⟩)
      worldPose := none
      leftHand := none
      rightHand := none }

/-- A document whose single frame has a 30-entry pose landmark array. -/
def docShortPose : RawDocument where
  metadata := some mdOne
  skeleton := some skOk
  frames := some [shortPoseFrame]

/-! ## Theorems -/

/-- Claim C3: for every landmark `[x, y, z]` and every boolean `mirrored`,
the capture-space → scene-space transform returns exactly
`x' = (x - 0.5) * 2 * (mirrored ? -1 : 1)`, `y' = -(y - 0.5) * 2`,
`z' = -z * 2`; it agrees with the specification's formula and, being a
plain function of its two arguments, has no state and no I/O. -/
theorem claim3_toScene_formula (l : Vec3) (m : Bool) :
    toScene l m = toSceneSpec l m ∧
    (toScene l m).x = (l.x - 1/2) * 2 * (if m then -1 else 1) ∧
    (toScene l m).y = -(l.y - 1/2) * 2 ∧
    (toScene l m).z = -l.z * 2 :=
  ⟨rfl, rfl, rfl, rfl⟩

/-- Claim C4, counterexample: `toScene (toScene p true) false` does not
restore the original point, not even up to the sign of x — at
`p = (0,0,0)` the double application yields `(1,-1,0)` — and double
mirroring is not the unmirrored transform composed with x-negation. -/
theorem claim4_counterexample :
    toScene (toScene ⟨0, 0, 0⟩ true) false ≠ (⟨0, 0, 0⟩ : Vec3) ∧
    toScene (toScene ⟨0, 0, 0⟩ true) false ≠ negX (⟨0, 0, 0⟩ : Vec3) ∧
    toScene (toScene ⟨0, 0, 0⟩ true) true ≠ negX (toScene ⟨0, 0, 0⟩ false) := by
  refine ⟨?_, ?_, ?_⟩ <;> simp [toScene, negX, Vec3.mk.injEq] <;> norm_num

/-- Claim C4, amended: the mirror flag only negates the x output — for every
point, `toScene p true = negX (toScene p false)` — so mirroring twice
(negating x twice) restores the unmirrored transform's output, while the
transform itself is not an involution. -/
theorem claim4_mirror_is_negX (v : Vec3) :
    toScene v true = negX (toScene v false) ∧
    negX (negX (toScene v false)) = toScene v false := by
  constructor
  · cases v
    simp [toScene, negX, Vec3.mk.injEq]
  · cases h : toScene v false
    simp [negX]

/-- Claim C5, counterexample: `setCurrentFrame` stores the requested frame
without clamping — requesting frame `-5` stores `-5`, which lies below the
claimed lower bound `0` of `[0, totalFrames-1]` for every `totalFrames`. -/
theorem claim5_counterexample :
    (setCurrentFrame (-5) initialAppState).currentFrame = -5 ∧
    ¬ 0 ≤ (setCurrentFrame (-5) initialAppState).currentFrame := by
  decide

/-- Claim C5, amended: `setCurrentFrame f` stores the requested frame
index unchanged (no clamping, negative and out-of-range values included),
the new frame takes effect immediately in any current state, and no other
store field — in particular none recording playing/paused or processing
membership — is modified. -/
theorem claim5_seek_unclamped_frame_effect (f : Int) (s : AppState) :
    (setCurrentFrame f s).currentFrame = f ∧
    (setCurrentFrame f s).backendStatus = s.backendStatus ∧
    (setCurrentFrame f s).currentSession = s.currentSession ∧
    (setCurrentFrame f s).sessions = s.sessions ∧
    (setCurrentFrame f s).videoPath = s.videoPath ∧
    (setCurrentFrame f s).isProcessing = s.isProcessing ∧
    (setCurrentFrame f s).processingProgress = s.processingProgress ∧
    (setCurrentFrame f s).motionData = s.motionData ∧
    (setCurrentFrame f s).flowMetrics = s.flowMetrics ∧
    (setCurrentFrame f s).settings = s.settings :=
  ⟨rfl, rfl, rfl, rfl, rfl, rfl, rfl, rfl, rfl, rfl⟩

/-- Claim C6, counterexample: `updateSettings` performs no validation —
supplying `playbackSpeed = -1` (≤ 0) is not rejected: it overwrites the
prior speed `1` instead of retaining it. -/
theorem claim6_counterexample :
    initialAppState.settings.playbackSpeed = 1 ∧
    (-1 : ℚ) ≤ 0 ∧
    (updateSettings { playbackSpeed := some (-1) } initialAppState).settings.playbackSpeed
      = -1 ∧
    (updateSettings { playbackSpeed := some (-1) } initialAppState).settings.playbackSpeed
      ≠ 1 := by
  decide

/-- Claim C6, amended: `updateSettings` performs no validation of
`playbackSpeed`: every supplied value — including values ≤ 0 — is stored
verbatim, replacing the prior speed; no `InvalidSpeed` rejection exists. -/
theorem claim6_speed_not_validated (v : ℚ) (p : SettingsPatch) (s : AppState)
    (h : p.playbackSpeed = some v) :
    (updateSettings p s).settings.playbackSpeed = v := by
  simp [updateSettings, mergeSettings, h]

/-- Witness for the amended C6 at `v = -1` from the initial store state. -/
theorem claim6_witness :
    (updateSettings { playbackSpeed := some (-1) } initialAppState).settings.playbackSpeed
      = -1 :=
  claim6_speed_not_validated (-1) { playbackSpeed := some (-1) } initialAppState rfl

/-- Claim C10: `updateSettings p` changes only the `settings` field — every
other store field is returned unchanged — and each settings key absent
from the patch retains its prior value (the merged field is
`p.key.getD old.key`); likewise `updateFlowMetrics m` changes only
`flowMetrics`, merging the patch over the prior metrics. -/
theorem claim10_update_frame_effect (p : SettingsPatch) (m : FlowMetricsPatch)
    (s : AppState) :
    (updateSettings p s).backendStatus = s.backendStatus ∧
    (updateSettings p s).currentSession = s.currentSession ∧
    (updateSettings p s).sessions = s.sessions ∧
    (updateSettings p s).videoPath = s.videoPath ∧
    (updateSettings p s).isProcessing = s.isProcessing ∧
    (updateSettings p s).processingProgress = s.processingProgress ∧
    (updateSettings p s).motionData = s.motionData ∧
    (updateSettings p s).currentFrame = s.currentFrame ∧
    (updateSettings p s).flowMetrics = s.flowMetrics ∧
    (updateSettings p s).settings.theme = p.theme.getD s.settings.theme ∧
    (updateSettings p s).settings.showSkeleton
      = p.showSkeleton.getD s.settings.showSkeleton ∧
    (updateSettings p s).settings.showTrajectories
      = p.showTrajectories.getD s.settings.showTrajectories ∧
    (updateSettings p s).settings.playbackSpeed
      = p.playbackSpeed.getD s.settings.playbackSpeed ∧
    (updateSettings p s).settings.autoDetectFlow
      = p.autoDetectFlow.getD s.settings.autoDetectFlow ∧
    (updateFlowMetrics m s).backendStatus = s.backendStatus ∧
    (updateFlowMetrics m s).currentSession = s.currentSession ∧
    (updateFlowMetrics m s).sessions = s.sessions ∧
    (updateFlowMetrics m s).videoPath = s.videoPath ∧
    (updateFlowMetrics m s).isProcessing = s.isProcessing ∧
    (updateFlowMetrics m s).processingProgress = s.processingProgress ∧
    (updateFlowMetrics m s).motionData = s.motionData ∧
    (updateFlowMetrics m s).currentFrame = s.currentFrame ∧
    (updateFlowMetrics m s).settings = s.settings ∧
    (updateFlowMetrics m s).flowMetrics.coherence
      = m.coherence.getD s.flowMetrics.coherence ∧
    (updateFlowMetrics m s).flowMetrics.smoothness
      = m.smoothness.getD s.flowMetrics.smoothness ∧
    (updateFlowMetrics m s).flowMetrics.balance
      = m.balance.getD s.flowMetrics.balance ∧
    (updateFlowMetrics m s).flowMetrics.energy
      = m.energy.getD s.flowMetrics.energy ∧
    (updateFlowMetrics m s).flowMetrics.focus
      = m.focus.getD s.flowMetrics.focus :=
  ⟨rfl, rfl, rfl, rfl, rfl, rfl, rfl, rfl, rfl, rfl, rfl, rfl, rfl, rfl, rfl, rfl,
   rfl, rfl, rfl, rfl, rfl, rfl, rfl, rfl, rfl, rfl, rfl, rfl⟩

/-- Claim C9: each job-lifecycle IPC handler is total — on every backend
outcome it resolves (never throws) to `{ success: true, data }` when the
backend call resolved and to `{ success: false, error }` with a string
error (the server-supplied error string when present, otherwise the thrown
error's message) when it threw; the two shapes are exhaustive. -/
theorem claim9_ipc_handlers_total (d : AnyData) (re : Option String) (msg : String)
    (o : BackendOutcome) :
    uploadVideoHandler (.ok d) = .success d ∧
    processVideoHandler (.ok d) = .success d ∧
    getVideoStatusHandler (.ok d) = .success d ∧
    getVideoResultsHandler (.ok d) = .success d ∧
    uploadVideoHandler (.thrown re msg) = .failure (re.getD msg) ∧
    processVideoHandler (.thrown re msg) = .failure (re.getD msg) ∧
    getVideoStatusHandler (.thrown re msg) = .failure (re.getD msg) ∧
    getVideoResultsHandler (.thrown re msg) = .failure (re.getD msg) ∧
    ((∃ x, uploadVideoHandler o = .success x) ∨ ∃ e, uploadVideoHandler o = .failure e) ∧
    ((∃ x, processVideoHandler o = .success x) ∨ ∃ e, processVideoHandler o = .failure e) ∧
    ((∃ x, getVideoStatusHandler o = .success x) ∨
      ∃ e, getVideoStatusHandler o = .failure e) ∧
    ((∃ x, getVideoResultsHandler o = .success x) ∨
      ∃ e, getVideoResultsHandler o = .failure e) := by
  refine ⟨rfl, rfl, rfl, rfl, rfl, rfl, rfl, rfl, ?_, ?_, ?_, ?_⟩ <;>
    cases o with
    | ok x => exact Or.inl ⟨x, rfl⟩
    | thrown re m => exact Or.inr ⟨re.getD m, rfl⟩

/-! ### Poll-loop lemmas -/

/-- Once the interval has been cleared, a tick does nothing (Electron). -/
theorem pollStepElectron_inactive (f : FetchOutcome) (s : PollLoopState)
    (o : PollOutcome) (h : s.active = false) : pollStepElectron f s o = s := by
  simp [pollStepElectron, h]

/-- Once the interval has been cleared, the rest of the run does nothing
(Electron). -/
theorem foldl_pollStepElectron_inactive (f : FetchOutcome) (s : PollLoopState)
    (os : List PollOutcome) (h : s.active = false) :
    os.foldl (pollStepElectron f) s = s := by
  induction os with
  | nil => rfl
  | cons o os ih => rw [List.foldl_cons, pollStepElectron_inactive f s o h, ih]

/-- A non-terminal tick (Electron) increments the poll counter, stores the
snapshot's progress when there is one, and changes nothing else. -/
theorem pollStepElectron_keeps (f : FetchOutcome) (s : PollLoopState)
    (o : PollOutcome) (ha : s.active = true) (hk : keepsPollingE o = true) :
    ∃ q, pollStepElectron f s o =
      { s with polls := s.polls + 1, processingProgress := q } := by
  cases o with
  | ok st p =>
    cases st with
    | uploaded => exact ⟨p, by simp [pollStepElectron, ha]⟩
    | processing => exact ⟨p, by simp [pollStepElectron, ha]⟩
    | completed => simp [keepsPollingE] at hk
    | error => simp [keepsPollingE] at hk
  | notOk => exact ⟨s.processingProgress, by simp [pollStepElectron, ha]⟩
  | netFail => simp [keepsPollingE] at hk

/-- Over a run of non-terminal ticks (Electron), the loop stays active,
issues one poll per tick, never fetches, and leaves the error, processing
flag and results untouched. -/
theorem foldl_pollStepElectron_keeps (f : FetchOutcome) (pre : List PollOutcome)
    (s : PollLoopState) (ha : s.active = true)
    (hk : ∀ o ∈ pre, keepsPollingE o = true) :
    (pre.foldl (pollStepElectron f) s).active = true ∧
    (pre.foldl (pollStepElectron f) s).polls = s.polls + pre.length ∧
    (pre.foldl (pollStepElectron f) s).fetchCalls = s.fetchCalls ∧
    (pre.foldl (pollStepElectron f) s).error = s.error ∧
    (pre.foldl (pollStepElectron f) s).isProcessing = s.isProcessing ∧
    (pre.foldl (pollStepElectron f) s).results = s.results := by
  induction pre generalizing s with
  | nil => simp [ha]
  | cons o os ih =>
    obtain ⟨q, hq⟩ :=
      pollStepElectron_keeps f s o ha (hk o (List.mem_cons_self o os))
    rw [List.foldl_cons, hq]
    obtain ⟨h1, h2, h3, h4, h5, h6⟩ :=
      ih { s with polls := s.polls + 1, processingProgress := q } ha
        (fun x hx => hk x (List.mem_cons_of_mem o hx))
    refine ⟨h1, ?_, h3, h4, h5, h6⟩
    rw [h2]
    show s.polls + 1 + os.length = s.polls + (os.length + 1)
    omega

/-- Once the interval has been cleared, a tick does nothing (HTTP). -/
theorem pollStepWeb_inactive (f : Option AnyData) (s : PollLoopState)
    (o : WebPollOutcome) (h : s.active = false) : pollStepWeb f s o = s := by
  simp [pollStepWeb, h]

/-- Once the interval has been cleared, the rest of the run does nothing
(HTTP). -/
theorem foldl_pollStepWeb_inactive (f : Option AnyData) (s : PollLoopState)
    (os : List WebPollOutcome) (h : s.active = false) :
    os.foldl (pollStepWeb f) s = s := by
  induction os with
  | nil => rfl
  | cons o os ih => rw [List.foldl_cons, pollStepWeb_inactive f s o h, ih]

/-- A polling-preserving tick (HTTP) — a non-terminal snapshot or a thrown
request — increments the poll counter, stores the snapshot's progress when
there is one, and changes nothing else. -/
theorem pollStepWeb_keeps (f : Option AnyData) (s : PollLoopState)
    (o : WebPollOutcome) (ha : s.active = true) (hk : keepsPollingW o = true) :
    ∃ q, pollStepWeb f s o =
      { s with polls := s.polls + 1, processingProgress := q } := by
  cases o with
  | snapshot st p =>
    cases st with
    | uploaded => exact ⟨p, by simp [pollStepWeb, ha]⟩
    | processing => exact ⟨p, by simp [pollStepWeb, ha]⟩
    | completed => simp [keepsPollingW] at hk
    | error => simp [keepsPollingW] at hk
  | netFail => exact ⟨s.processingProgress, by simp [pollStepWeb, ha]⟩

/-- Over a run of polling-preserving ticks (HTTP), the loop stays active,
issues one poll per tick, never fetches, and leaves the error, processing
flag and results untouched. -/
theorem foldl_pollStepWeb_keeps (f : Option AnyData) (pre : List WebPollOutcome)
    (s : PollLoopState) (ha : s.active = true)
    (hk : ∀ o ∈ pre, keepsPollingW o = true) :
    (pre.foldl (pollStepWeb f) s).active = true ∧
    (pre.foldl (pollStepWeb f) s).polls = s.polls + pre.length ∧
    (pre.foldl (pollStepWeb f) s).fetchCalls = s.fetchCalls ∧
    (pre.foldl (pollStepWeb f) s).error = s.error ∧
    (pre.foldl (pollStepWeb f) s).isProcessing = s.isProcessing ∧
    (pre.foldl (pollStepWeb f) s).results = s.results := by
  induction pre generalizing s with
  | nil => simp [ha]
  | cons o os ih =>
    obtain ⟨q, hq⟩ := pollStepWeb_keeps f s o ha (hk o (List.mem_cons_self o os))
    rw [List.foldl_cons, hq]
    obtain ⟨h1, h2, h3, h4, h5, h6⟩ :=
      ih { s with polls := s.polls + 1, processingProgress := q } ha
        (fun x hx => hk x (List.mem_cons_of_mem o hx))
    refine ⟨h1, ?_, h3, h4, h5, h6⟩
    rw [h2]
    show s.polls + 1 + os.length = s.polls + (os.length + 1)
    omega

/-- Effect of a `completed` snapshot on an active loop (Electron),
independent of the fetch outcome. -/
theorem pollStepElectron_completed_facts (f : FetchOutcome) (s : PollLoopState)
    (p : Nat) (ha : s.active = true) :
    (pollStepElectron f s (.ok .completed p)).active = false ∧
    (pollStepElectron f s (.ok .completed p)).fetchCalls = s.fetchCalls + 1 ∧
    (pollStepElectron f s (.ok .completed p)).polls = s.polls + 1 ∧
    (pollStepElectron f s (.ok .completed p)).isProcessing = false := by
  cases f <;> simp [pollStepElectron, ha]

/-- Effect of an `error`-status snapshot on an active loop (Electron). -/
theorem pollStepElectron_errorStatus_eq (f : FetchOutcome) (s : PollLoopState)
    (p : Nat) (ha : s.active = true) :
    pollStepElectron f s (.ok .error p) =
      { s with active := false, isProcessing := false,
               error := some processingFailedMsg, polls := s.polls + 1,
               processingProgress := p } := by
  simp [pollStepElectron, ha]

/-- Effect of a thrown status request on an active loop (Electron). -/
theorem pollStepElectron_netFail_eq (f : FetchOutcome) (s : PollLoopState)
    (ha : s.active = true) :
    pollStepElectron f s .netFail =
      { s with active := false, isProcessing := false,
               error := some backendCommFailedMsg, polls := s.polls + 1 } := by
  simp [pollStepElectron, ha]

/-- Effect of a `completed` snapshot on an active loop (HTTP). -/
theorem pollStepWeb_completed_facts (f : Option AnyData) (s : PollLoopState)
    (p : Nat) (ha : s.active = true) :
    (pollStepWeb f s (.snapshot .completed p)).active = false ∧
    (pollStepWeb f s (.snapshot .completed p)).fetchCalls = s.fetchCalls + 1 ∧
    (pollStepWeb f s (.snapshot .completed p)).polls = s.polls + 1 ∧
    (pollStepWeb f s (.snapshot .completed p)).isProcessing = false := by
  cases f <;> simp [pollStepWeb, ha]

/-- Effect of an `error`-status snapshot on an active loop (HTTP). -/
theorem pollStepWeb_errorStatus_eq (f : Option AnyData) (s : PollLoopState)
    (p : Nat) (ha : s.active = true) :
    pollStepWeb f s (.snapshot .error p) =
      { s with active := false, isProcessing := false,
               error := some processingFailedMsg, polls := s.polls + 1,
               processingProgress := p } := by
  simp [pollStepWeb, ha]

/-- Run-level facts for an Electron trace whose first terminal event is a
`completed` snapshot: exactly one results fetch, no poll after it, the
interval is cleared and the processing flag dropped. -/
theorem runPollElectron_completed (f : FetchOutcome) (pre rest : List PollOutcome)
    (p : Nat) (hk : ∀ o ∈ pre, keepsPollingE o = true) :
    (runPollElectron f (pre ++ .ok .completed p :: rest)).fetchCalls = 1 ∧
    (runPollElectron f (pre ++ .ok .completed p :: rest)).polls = pre.length + 1 ∧
    (runPollElectron f (pre ++ .ok .completed p :: rest)).active = false ∧
    (runPollElectron f (pre ++ .ok .completed p :: rest)).isProcessing = false := by
  obtain ⟨ma, mp, mf, me, mi, mr⟩ :=
    foldl_pollStepElectron_keeps f pre initPollState rfl hk
  obtain ⟨sa, sf, sp, si⟩ := pollStepElectron_completed_facts f _ p ma
  unfold runPollElectron
  rw [List.foldl_append, List.foldl_cons, foldl_pollStepElectron_inactive _ _ _ sa]
  refine ⟨?_, ?_, sa, si⟩
  · rw [sf, mf]
    rfl
  · rw [sp, mp]
    show initPollState.polls + pre.length + 1 = pre.length + 1
    show 0 + pre.length + 1 = pre.length + 1
    omega

/-- Run-level facts for an Electron trace whose first terminal event is an
`error`-status snapshot: polling stops on that snapshot with no retry and
no results fetch, and the fixed failure message is surfaced. -/
theorem runPollElectron_errorStatus (f : FetchOutcome) (pre rest : List PollOutcome)
    (p : Nat) (hk : ∀ o ∈ pre, keepsPollingE o = true) :
    (runPollElectron f (pre ++ .ok .error p :: rest)).fetchCalls = 0 ∧
    (runPollElectron f (pre ++ .ok .error p :: rest)).polls = pre.length + 1 ∧
    (runPollElectron f (pre ++ .ok .error p :: rest)).active = false ∧
    (runPollElectron f (pre ++ .ok .error p :: rest)).isProcessing = false ∧
    (runPollElectron f (pre ++ .ok .error p :: rest)).error
      = some processingFailedMsg := by
  obtain ⟨ma, mp, mf, me, mi, mr⟩ :=
    foldl_pollStepElectron_keeps f pre initPollState rfl hk
  unfold runPollElectron
  rw [List.foldl_append, List.foldl_cons, pollStepElectron_errorStatus_eq f _ p ma,
    foldl_pollStepElectron_inactive _ _ _ rfl]
  refine ⟨mf, ?_, rfl, rfl, rfl⟩
  show (List.foldl (pollStepElectron f) initPollState pre).polls + 1 = pre.length + 1
  rw [mp]
  show 0 + pre.length + 1 = pre.length + 1
  omega

/-- Run-level facts for an Electron trace whose first terminal event is a
thrown status request: polling stops at once — no retry — with the fixed
communication-failure message and no results fetch. -/
theorem runPollElectron_netFail (f : FetchOutcome) (pre rest : List PollOutcome)
    (hk : ∀ o ∈ pre, keepsPollingE o = true) :
    (runPollElectron f (pre ++ .netFail :: rest)).fetchCalls = 0 ∧
    (runPollElectron f (pre ++ .netFail :: rest)).polls = pre.length + 1 ∧
    (runPollElectron f (pre ++ .netFail :: rest)).active = false ∧
    (runPollElectron f (pre ++ .netFail :: rest)).isProcessing = false ∧
    (runPollElectron f (pre ++ .netFail :: rest)).error
      = some backendCommFailedMsg := by
  obtain ⟨ma, mp, mf, me, mi, mr⟩ :=
    foldl_pollStepElectron_keeps f pre initPollState rfl hk
  unfold runPollElectron
  rw [List.foldl_append, List.foldl_cons, pollStepElectron_netFail_eq f _ ma,
    foldl_pollStepElectron_inactive _ _ _ rfl]
  refine ⟨mf, ?_, rfl, rfl, rfl⟩
  show (List.foldl (pollStepElectron f) initPollState pre).polls + 1 = pre.length + 1
  rw [mp]
  show 0 + pre.length + 1 = pre.length + 1
  omega

/-- Run-level facts for an HTTP trace whose first terminal event is a
`completed` snapshot. -/
theorem runPollWeb_completed (f : Option AnyData) (pre rest : List WebPollOutcome)
    (p : Nat) (hk : ∀ o ∈ pre, keepsPollingW o = true) :
    (runPollWeb f (pre ++ .snapshot .completed p :: rest)).fetchCalls = 1 ∧
    (runPollWeb f (pre ++ .snapshot .completed p :: rest)).polls = pre.length + 1 ∧
    (runPollWeb f (pre ++ .snapshot .completed p :: rest)).active = false ∧
    (runPollWeb f (pre ++ .snapshot .completed p :: rest)).isProcessing = false := by
  obtain ⟨ma, mp, mf, me, mi, mr⟩ :=
    foldl_pollStepWeb_keeps f pre initPollState rfl hk
  obtain ⟨sa, sf, sp, si⟩ := pollStepWeb_completed_facts f _ p ma
  unfold runPollWeb
  rw [List.foldl_append, List.foldl_cons, foldl_pollStepWeb_inactive _ _ _ sa]
  refine ⟨?_, ?_, sa, si⟩
  · rw [sf, mf]
    rfl
  · rw [sp, mp]
    show initPollState.polls + pre.length + 1 = pre.length + 1
    show 0 + pre.length + 1 = pre.length + 1
    omega

/-- Run-level facts for an HTTP trace whose first terminal event is an
`error`-status snapshot. -/
theorem runPollWeb_errorStatus (f : Option AnyData) (pre rest : List WebPollOutcome)
    (p : Nat) (hk : ∀ o ∈ pre, keepsPollingW o = true) :
    (runPollWeb f (pre ++ .snapshot .error p :: rest)).fetchCalls = 0 ∧
    (runPollWeb f (pre ++ .snapshot .error p :: rest)).polls = pre.length + 1 ∧
    (runPollWeb f (pre ++ .snapshot .error p :: rest)).active = false ∧
    (runPollWeb f (pre ++ .snapshot .error p :: rest)).isProcessing = false ∧
    (runPollWeb f (pre ++ .snapshot .error p :: rest)).error
      = some processingFailedMsg := by
  obtain ⟨ma, mp, mf, me, mi, mr⟩ :=
    foldl_pollStepWeb_keeps f pre initPollState rfl hk
  unfold runPollWeb
  rw [List.foldl_append, List.foldl_cons, pollStepWeb_errorStatus_eq f _ p ma,
    foldl_pollStepWeb_inactive _ _ _ rfl]
  refine ⟨mf, ?_, rfl, rfl, rfl⟩
  show (List.foldl (pollStepWeb f) initPollState pre).polls + 1 = pre.length + 1
  rw [mp]
  show 0 + pre.length + 1 = pre.length + 1
  omega

/-- Claim C1: in every polling run (either variant), once a terminal
snapshot — `completed` or `error` — is observed, no further poll request is
issued (`polls = pre.length + 1` and the interval is cleared, whatever
outcomes follow), and a run whose first terminal event is `completed`
calls the results-fetch operation exactly once, in the same tick as the
completed snapshot.  All four variant × terminal-status combinations are
covered: Electron/completed, Electron/error, HTTP/completed, HTTP/error. -/
theorem claim1_terminal_polling (f : FetchOutcome) (pre rest : List PollOutcome)
    (p q : Nat) (wf : Option AnyData) (wpre wrest : List WebPollOutcome)
    (wp wq : Nat) (hk : ∀ o ∈ pre, keepsPollingE o = true)
    (hkw : ∀ o ∈ wpre, keepsPollingW o = true) :
    (runPollElectron f (pre ++ .ok .completed p :: rest)).fetchCalls = 1 ∧
    (runPollElectron f (pre ++ .ok .completed p :: rest)).polls = pre.length + 1 ∧
    (runPollElectron f (pre ++ .ok .completed p :: rest)).active = false ∧
    (runPollElectron f (pre ++ .ok .error q :: rest)).fetchCalls = 0 ∧
    (runPollElectron f (pre ++ .ok .error q :: rest)).polls = pre.length + 1 ∧
    (runPollElectron f (pre ++ .ok .error q :: rest)).active = false ∧
    (runPollWeb wf (wpre ++ .snapshot .completed wp :: wrest)).fetchCalls = 1 ∧
    (runPollWeb wf (wpre ++ .snapshot .completed wp :: wrest)).polls
      = wpre.length + 1 ∧
    (runPollWeb wf (wpre ++ .snapshot .completed wp :: wrest)).active = false ∧
    (runPollWeb wf (wpre ++ .snapshot .error wq :: wrest)).fetchCalls = 0 ∧
    (runPollWeb wf (wpre ++ .snapshot .error wq :: wrest)).polls
      = wpre.length + 1 ∧
    (runPollWeb wf (wpre ++ .snapshot .error wq :: wrest)).active = false := by
  obtain ⟨c1, c2, c3, c4⟩ := runPollElectron_completed f pre rest p hk
  obtain ⟨e1, e2, e3, e4, e5⟩ := runPollElectron_errorStatus f pre rest q hk
  obtain ⟨w1, w2, w3, w4⟩ := runPollWeb_completed wf wpre wrest wp hkw
  obtain ⟨v1, v2, v3, v4, v5⟩ := runPollWeb_errorStatus wf wpre wrest wq hkw
  exact ⟨c1, c2, c3, e1, e2, e3, w1, w2, w3, v1, v2, v3⟩

/-- Witness for C1 on the spec's example trace
`[Processing(10), Processing(60), Completed(100)]`, plus the HTTP variant's
error-terminal case on the analogous trace. -/
theorem claim1_witness :
    (runPollElectron (.ok "results")
      ([.ok .processing 10, .ok .processing 60] ++ .ok .completed 100 :: [])).fetchCalls
      = 1 ∧
    (runPollElectron (.ok "results")
      ([.ok .processing 10, .ok .processing 60] ++ .ok .completed 100 :: [])).polls
      = 3 ∧
    (runPollWeb (some "results")
      ([.snapshot .processing 10, .snapshot .processing 60]
        ++ .snapshot .completed 100 :: [])).fetchCalls = 1 ∧
    (runPollWeb (some "results")
      ([.snapshot .processing 10, .snapshot .processing 60]
        ++ .snapshot .error 60 :: [])).polls = 3 ∧
    (runPollWeb (some "results")
      ([.snapshot .processing 10, .snapshot .processing 60]
        ++ .snapshot .error 60 :: [])).active = false := by
  have h := claim1_terminal_polling (.ok "results")
    [.ok .processing 10, .ok .processing 60] [] 100 100 (some "results")
    [.snapshot .processing 10, .snapshot .processing 60] [] 100 60
    (by decide) (by decide)
  exact ⟨h.1, h.2.1, h.2.2.2.2.2.2.1,
    h.2.2.2.2.2.2.2.2.2.2.1, h.2.2.2.2.2.2.2.2.2.2.2⟩

/-- Claim C2, counterexample: a single network-level poll failure ends
polling by itself in the Electron variant — on the trace
`[netFail, Processing(50)]` only one poll is issued, the loop is abandoned
at once with the fixed communication message, and no retry (let alone 3)
happens. -/
theorem claim2_counterexample :
    (runPollElectron (.ok "results") [.netFail, .ok .processing 50]).polls = 1 ∧
    (runPollElectron (.ok "results") [.netFail, .ok .processing 50]).active = false ∧
    (runPollElectron (.ok "results") [.netFail, .ok .processing 50]).error
      = some backendCommFailedMsg := by
  refine ⟨rfl, rfl, rfl⟩

/-- Claim C2, amended: a network-level poll failure is distinct from a
job-level `error` status, but there is no bounded 3-retry policy: in the
Electron variant the first thrown poll immediately surfaces the fixed
message `Failed to communicate with backend.`, clears the processing flag
and stops polling with no retry; in the direct-HTTP variant a thrown poll
is only logged — the loop state is unchanged except for the poll counter
and polling continues unbounded. -/
theorem claim2_netfail_no_retry (f : FetchOutcome) (pre rest : List PollOutcome)
    (wf : Option AnyData) (s : PollLoopState)
    (hk : ∀ o ∈ pre, keepsPollingE o = true) (hs : s.active = true) :
    (runPollElectron f (pre ++ .netFail :: rest)).polls = pre.length + 1 ∧
    (runPollElectron f (pre ++ .netFail :: rest)).active = false ∧
    (runPollElectron f (pre ++ .netFail :: rest)).isProcessing = false ∧
    (runPollElectron f (pre ++ .netFail :: rest)).error
      = some backendCommFailedMsg ∧
    (runPollElectron f (pre ++ .netFail :: rest)).fetchCalls = 0 ∧
    pollStepWeb wf s .netFail = { s with polls := s.polls + 1 } := by
  obtain ⟨e1, e2, e3, e4, e5⟩ := runPollElectron_netFail f pre rest hk
  exact ⟨e2, e3, e4, e5, e1, by simp [pollStepWeb, hs]⟩

/-- Witness for the amended C2: one clean poll, then a thrown poll. -/
theorem claim2_witness :
    (runPollElectron (.ok "results") ([.ok .processing 10] ++ .netFail :: [])).polls
      = 2 ∧
    (runPollElectron (.ok "results") ([.ok .processing 10] ++ .netFail :: [])).error
      = some backendCommFailedMsg ∧
    pollStepWeb (some "results") initPollState .netFail
      = { initPollState with polls := initPollState.polls + 1 } := by
  have h := claim2_netfail_no_retry (.ok "results") [.ok .processing 10] []
    (some "results") initPollState (by decide) rfl
  exact ⟨h.1, h.2.2.2.1, h.2.2.2.2.2⟩

/-- Claim C7: when a poll snapshot reports job-level status `error`, both
variants stop polling on that snapshot — no retry of the job, no further
poll, no results fetch — and the surfaced error is the fixed user-readable
message `Processing failed. Please try again.`, a constant independent of
any transport detail. -/
theorem claim7_error_status_terminal (f : FetchOutcome)
    (pre rest : List PollOutcome) (p : Nat) (wf : Option AnyData)
    (wpre wrest : List WebPollOutcome) (wp : Nat)
    (hk : ∀ o ∈ pre, keepsPollingE o = true)
    (hkw : ∀ o ∈ wpre, keepsPollingW o = true) :
    (runPollElectron f (pre ++ .ok .error p :: rest)).error
      = some processingFailedMsg ∧
    (runPollElectron f (pre ++ .ok .error p :: rest)).polls = pre.length + 1 ∧
    (runPollElectron f (pre ++ .ok .error p :: rest)).active = false ∧
    (runPollElectron f (pre ++ .ok .error p :: rest)).fetchCalls = 0 ∧
    (runPollElectron f (pre ++ .ok .error p :: rest)).isProcessing = false ∧
    (runPollWeb wf (wpre ++ .snapshot .error wp :: wrest)).error
      = some processingFailedMsg ∧
    (runPollWeb wf (wpre ++ .snapshot .error wp :: wrest)).polls
      = wpre.length + 1 ∧
    (runPollWeb wf (wpre ++ .snapshot .error wp :: wrest)).active = false := by
  obtain ⟨e1, e2, e3, e4, e5⟩ := runPollElectron_errorStatus f pre rest p hk
  obtain ⟨v1, v2, v3, v4, v5⟩ := runPollWeb_errorStatus wf wpre wrest wp hkw
  exact ⟨e5, e2, e3, e1, e4, v5, v2, v3⟩

/-- Witness for C7: a processing snapshot followed by an `error` snapshot. -/
theorem claim7_witness :
    (runPollElectron (.ok "results")
      ([.ok .processing 40] ++ .ok .error 40 :: [.ok .processing 80])).error
      = some processingFailedMsg ∧
    (runPollElectron (.ok "results")
      ([.ok .processing 40] ++ .ok .error 40 :: [.ok .processing 80])).polls = 2 ∧
    (runPollWeb (some "results")
      ([.snapshot .processing 40] ++ .snapshot .error 40 :: [])).error
      = some processingFailedMsg := by
  have h := claim7_error_status_terminal (.ok "results") [.ok .processing 40]
    [.ok .processing 80] 40 (some "results") [.snapshot .processing 40] [] 40
    (by decide) (by decide)
  exact ⟨h.1, h.2.1, h.2.2.2.2.2.1⟩

/-! ### Validator lemmas -/

/-- A failing channel-shape check always carries the `ShapeMismatch` tag. -/
theorem checkChannelShape_error_form (i : Nat) (c : String) (n : Nat)
    (l : Option (List Vec3)) (e : ValidationError)
    (h : checkChannelShape i c n l = .error e) :
    e = .shapeMismatch (frameChannelPath i c) := by
  cases l with
  | none => simp [checkChannelShape] at h
  | some v =>
    by_cases hl : v.length = n
    · simp [checkChannelShape, hl] at h
    · simp [checkChannelShape, hl] at h
      exact h.symm

/-- A failing world-pose shape check always carries the `ShapeMismatch` tag. -/
theorem checkWorldShape_error_form (i : Nat) (l : Option (List Vec4))
    (e : ValidationError) (h : checkWorldShape i l = .error e) :
    e = .shapeMismatch (frameChannelPath i "world_pose") := by
  cases l with
  | none => simp [checkWorldShape] at h
  | some v =>
    by_cases hl : v.length = 33
    · simp [checkWorldShape, hl] at h
    · simp [checkWorldShape, hl] at h
      exact h.symm

/-- A succeeding channel-shape check certifies the expected length. -/
theorem checkChannelShape_ok_length (i : Nat) (c : String) (n : Nat)
    (l : Option (List Vec3)) (v : List Vec3) (u : Unit)
    (h : checkChannelShape i c n l = .ok u) (hv : l = some v) : v.length = n := by
  subst hv
  by_contra hn
  simp [checkChannelShape, hn] at h

/-- A failing frame-shape check always carries the `ShapeMismatch` tag. -/
theorem checkFrameShape_error_form (i : Nat) (f : RawFrame) (e : ValidationError)
    (h : checkFrameShape i f = .error e) : ∃ p, e = .shapeMismatch p := by
  unfold checkFrameShape at h
  cases h1 : checkChannelShape i "pose" 33 f.landmarks.pose with
  | error e1 =>
    rw [h1] at h
    cases h
    exact ⟨_, checkChannelShape_error_form i "pose" 33 _ _ h1⟩
  | ok u =>
    rw [h1] at h
    cases h2 : checkWorldShape i f.landmarks.worldPose with
    | error e2 =>
      rw [h2] at h
      cases h
      exact ⟨_, checkWorldShape_error_form i _ _ h2⟩
    | ok u2 =>
      rw [h2] at h
      cases h3 : checkChannelShape i "left_hand" 21 f.landmarks.leftHand with
      | error e3 =>
        rw [h3] at h
        cases h
        exact ⟨_, checkChannelShape_error_form i "left_hand" 21 _ _ h3⟩
      | ok u3 =>
        rw [h3] at h
        exact ⟨_, checkChannelShape_error_form i "right_hand" 21 _ e h⟩

/-- A succeeding frame-shape check certifies a present pose channel has
exactly 33 entries. -/
theorem checkFrameShape_ok_pose (i : Nat) (f : RawFrame) (u : Unit)
    (l : List Vec3) (h : checkFrameShape i f = .ok u)
    (hp : f.landmarks.pose = some l) : l.length = 33 := by
  unfold checkFrameShape at h
  cases h1 : checkChannelShape i "pose" 33 f.landmarks.pose with
  | error e1 => rw [h1] at h; cases h
  | ok u1 => exact checkChannelShape_ok_length i "pose" 33 _ l u1 h1 hp

/-- A failing shapes pass always carries the `ShapeMismatch` tag. -/
theorem checkShapes_error_form (i : Nat) (fs : List RawFrame) (e : ValidationError)
    (h : checkShapes i fs = .error e) : ∃ p, e = .shapeMismatch p := by
  induction fs generalizing i with
  | nil => simp [checkShapes] at h
  | cons f rest ih =>
    unfold checkShapes at h
    cases h1 : checkFrameShape i f with
    | error e1 =>
      rw [h1] at h
      cases h
      exact checkFrameShape_error_form i f _ h1
    | ok u =>
      rw [h1] at h
      exact ih (i + 1) h

/-- A frame whose pose channel is present with the wrong length makes the
shapes pass fail. -/
theorem checkShapes_pose_violation (i : Nat) (fs : List RawFrame) (f : RawFrame)
    (l : List Vec3) (hmem : f ∈ fs) (hp : f.landmarks.pose = some l)
    (hl : l.length ≠ 33) : ∃ e, checkShapes i fs = .error e := by
  induction fs generalizing i with
  | nil => cases hmem
  | cons g rest ih =>
    unfold checkShapes
    cases h1 : checkFrameShape i g with
    | error e => exact ⟨e, rfl⟩
    | ok u =>
      rcases List.mem_cons.mp hmem with hfg | hmem2
      · subst hfg
        exact absurd (checkFrameShape_ok_pose i f u l h1 hp) hl
      · exact ih (i + 1) hmem2

/-- The sequence pass rejects a fourth frame whose stored index differs
from 3 with `NonMonotonicSequence`, provided the first three frames pass
their index and time checks. -/
theorem checkSequence_bad4 (f0 f1 f2 f3 : RawFrame) (rest : List RawFrame)
    (t0 t1 t2 : ℚ) (k : Int)
    (h0 : f0.frame = some 0) (ht0 : f0.time = some t0)
    (h1 : f1.frame = some 1) (ht1 : f1.time = some t1) (h01 : ¬ t1 < t0)
    (h2 : f2.frame = some 2) (ht2 : f2.time = some t2) (h12 : ¬ t2 < t1)
    (h3 : f3.frame = some k) (hk : k ≠ 3) :
    checkSequence 0 none (f0 :: f1 :: f2 :: f3 :: rest) =
      .error (.nonMonotonicSequence (frameIndexPath 3)) := by
  simp only [checkSequence, h0, ht0, h1, ht1, h01, h2, ht2, h12, h3]
  norm_num [hk]

/-- Claim C8: provided the checks preceding the frame-sequence pass succeed
and frames 0–2 pass their own index/time checks, a document whose
`frames[3].frame ≠ 3` is rejected with `NonMonotonicSequence`; a document
passing the sequence pass whose pose landmark array has 30 entries is
rejected with a `ShapeMismatch`; and on any failure no canonical
`AnimationData` object is produced. -/
theorem claim8_validator_rejections :
    (∀ (d : RawDocument) (m : RawMetadata) (sk : RawSkeleton)
       (f0 f1 f2 f3 : RawFrame) (rest : List RawFrame) (t0 t1 t2 : ℚ) (k : Int),
       checkMetadata d = .ok m → checkSkeleton d = .ok sk →
       checkFrameCount d m = .ok (f0 :: f1 :: f2 :: f3 :: rest) →
       f0.frame = some 0 → f0.time = some t0 →
       f1.frame = some 1 → f1.time = some t1 → ¬ t1 < t0 →
       f2.frame = some 2 → f2.time = some t2 → ¬ t2 < t1 →
       f3.frame = some k → k ≠ 3 →
       validate d = .error (.nonMonotonicSequence (frameIndexPath 3))) ∧
    (∀ (d : RawDocument) (m : RawMetadata) (sk : RawSkeleton)
       (fs : List RawFrame) (f : RawFrame) (l : List Vec3),
       checkMetadata d = .ok m → checkSkeleton d = .ok sk →
       checkFrameCount d m = .ok fs → checkSequence 0 none fs = .ok () →
       f ∈ fs → f.landmarks.pose = some l → l.length = 30 →
       ∃ p, validate d = .error (.shapeMismatch p)) ∧
    (∀ (d : RawDocument) (e : ValidationError) (a : AnimationData),
       validate d = .error e → validate d ≠ .ok a) := by
  refine ⟨?_, ?_, ?_⟩
  · intro d m sk f0 f1 f2 f3 rest t0 t1 t2 k hmd hsk hfc
      h0 ht0 h1 ht1 h01 h2 ht2 h12 h3 hk
    have hseq :=
      checkSequence_bad4 f0 f1 f2 f3 rest t0 t1 t2 k h0 ht0 h1 ht1 h01 h2 ht2 h12 h3 hk
    unfold validate
    simp only [hmd, hsk, hfc, hseq]
  · intro d m sk fs f l hmd hsk hfc hseq hmem hp hlen
    obtain ⟨e, he⟩ :=
      checkShapes_pose_violation 0 fs f l hmem hp (by rw [hlen]; decide)
    obtain ⟨p, hpe⟩ := checkShapes_error_form 0 fs e he
    refine ⟨p, ?_⟩
    unfold validate
    simp only [hmd, hsk, hfc, hseq, he, hpe]
  · intro d e a h
    rw [h]
    intro hc
    exact Except.noConfusion hc

/-- Witness for C8: the bad-index document is rejected with
`NonMonotonicSequence` at `frames[3].frame`, and the 30-entry-pose document
with a `ShapeMismatch`. -/
theorem claim8_witness :
    validate docBadIndex = .error (.nonMonotonicSequence (frameIndexPath 3)) ∧
    (∃ p, validate docShortPose = .error (.shapeMismatch p)) := by
  constructor
  · exact claim8_validator_rejections.1 docBadIndex mdFour skOk
      (plainFrame 0) (plainFrame 1) (plainFrame 2)
      { plainFrame 3 with frame := some 5 } [] 0 1 2 5
      rfl rfl rfl rfl rfl rfl rfl (by norm_num) rfl rfl (by norm_num) rfl
      (by decide)
  · exact claim8_validator_rejections.2.1 docShortPose mdOne skOk
      [shortPoseFrame] shortPoseFrame (List.replicate 30 ⟨0, 0, 0⟩)
      rfl rfl rfl rfl (by simp) rfl (by simp)

end Flowstate
